import Mathlib

/-!
A verification development for the TEAPI repository (a Trading Economics
dashboard).  The definitions below are a shallow embedding of the data-access
layer (`src/te_api.py`) and the navigation / derived-metrics layer
(`src/app.py`).  Machine floats are modeled as `Option ℚ` where `none` stands
for a non-finite value (NaN); timestamps are modeled as `ℚ` (seconds);
fallible fetches are modeled as `Except Unit` parameters whose value is only
consulted where the source performs the network request.
-/

namespace TEAPI

/-! ### String helpers (Python `str` operations, on `List Char`) -/

/-- `listStartsWith l pat`: does `l` start with `pat`? -/
def listStartsWith : List Char → List Char → Bool
  | _, [] => true
  | [], _ :: _ => false
  | c :: t, p :: q => c == p && listStartsWith t q

/-- Python `pat in s` (substring containment), on char lists. -/
def listHasSub (pat : List Char) : List Char → Bool
  | [] => listStartsWith [] pat
  | c :: t => listStartsWith (c :: t) pat || listHasSub pat t

/-- Python `s.startswith(pre)`. -/
def strStartsWith (s pre : String) : Bool :=
  listStartsWith s.data pre.data

/-- Python `pat in s` (substring containment). -/
def strHasSubstr (s pat : String) : Bool :=
  listHasSub pat.data s.data

/-- Python `s.replace(pat, rep)`: left-to-right, non-overlapping replacement
of every occurrence.  (All patterns used by the source are non-empty; the
guard on `pat.isEmpty` keeps the recursion well-founded.) -/
def listReplace (pat rep : List Char) (l : List Char) : List Char :=
  match l with
  | [] => []
  | c :: t =>
    if listStartsWith (c :: t) pat && !pat.isEmpty then
      rep ++ listReplace pat rep (List.drop (pat.length - 1) t)
    else
      c :: listReplace pat rep t
termination_by l.length
decreasing_by
  · simp only [List.length_cons]
    have := List.length_drop (pat.length - 1) t
    omega
  · simp only [List.length_cons]; omega

/-- Python `s.replace(pat, rep)`. -/
def strReplace (s pat rep : String) : String :=
  ⟨listReplace pat.data rep.data s.data⟩

/-- Python `s.upper()` (ASCII data in this application). -/
def strUpper (s : String) : String := ⟨s.data.map Char.toUpper⟩

/-- Python `s.lower()` (ASCII data in this application). -/
def strLower (s : String) : String := ⟨s.data.map Char.toLower⟩

/-! ### Numeric cells and coercion

A raw payload cell is either a finite number or non-numeric / non-finite
content; `pd.to_numeric(..., errors="coerce")` maps the latter to NaN, which
we model as `none`. -/

/-- A raw numeric cell of a provider payload. -/
inductive RawNum where
  | fin (q : ℚ)
  | nonfin
deriving DecidableEq

/-- `pd.to_numeric(x, errors="coerce")`: finite numbers pass through,
anything else becomes NaN (`none`). -/
def toNumeric : RawNum → Option ℚ
  | .fin q => some q
  | .nonfin => none

/-- IEEE subtraction on NaN-or-value: NaN propagates. -/
def vsub : Option ℚ → Option ℚ → Option ℚ
  | some a, some b => some (a - b)
  | _, _ => none

/-- IEEE multiplication on NaN-or-value: NaN propagates. -/
def vmul : Option ℚ → Option ℚ → Option ℚ
  | some a, some b => some (a * b)
  | _, _ => none

/-- IEEE division on NaN-or-value: NaN propagates; a zero denominator yields
a non-finite result (the source guards against it). -/
def vdiv : Option ℚ → Option ℚ → Option ℚ
  | some a, some b => if b = 0 then none else some (a / b)
  | _, _ => none

/-- Python truthiness of a float-or-NaN: `0.0` is falsy, every other float,
including NaN, is truthy. -/
def pyTruthy : Option ℚ → Bool
  | some q => decide (q ≠ 0)
  | none => true

/-- Python `x != 0` on a float-or-NaN: true for NaN (`NaN != 0` is `True`). -/
def vNe0 : Option ℚ → Bool
  | some q => decide (q ≠ 0)
  | none => true

/-! ### CacheStore (`TEClient._get`, src/te_api.py:18-31)

The cache is the `self._cache` dict: association of a path key to a
`(storedAt, payload)` pair.  The network request performed inside `_get` is
modeled by the `fetch : Except Unit α` parameter, consulted only where the
source actually issues the request; `.error` models a network error, timeout
or non-2xx response (`resp.raise_for_status()`). -/

/-- The `self._cache` dict for payloads of type `α`. -/
abbrev Cache (α : Type) := List (String × ℚ × α)

/-- Dict lookup `self._cache[path]`. -/
def cacheLookup {α : Type} (c : Cache α) (key : String) : Option (ℚ × α) :=
  (c.find? (fun e => e.1 == key)).map (·.2)

/-- Dict assignment `self._cache[path] = (now, data)`. -/
def cacheInsert {α : Type} (c : Cache α) (key : String) (ts : ℚ) (v : α) :
    Cache α :=
  (key, ts, v) :: c.filter (fun e => e.1 != key)

/-- `TEClient._get(path, ttl)` (src/te_api.py:18-31).  Returns the result
(the payload, or the propagated fetch error) together with the cache left
behind: the cache is written only on a successful fetch. -/
def teGet {α : Type} (c : Cache α) (path : String) (ttl now : ℚ)
    (fetch : Except Unit α) : Except Unit α × Cache α :=
  match cacheLookup c path with
  | some (ts, data) =>
    if now - ts < ttl then (.ok data, c)
    else
      match fetch with
      | .error e => (.error e, c)
      | .ok d => (.ok d, cacheInsert c path now d)
  | none =>
    match fetch with
    | .error e => (.error e, c)
    | .ok d => (.ok d, cacheInsert c path now d)

/-- Whether a `_get` call at time `now` reaches the network request (cache
miss, or an entry whose age is at least the ttl). -/
def teGetUsesFetch {α : Type} (c : Cache α) (path : String) (ttl now : ℚ) :
    Bool :=
  match cacheLookup c path with
  | some (ts, _) => decide (ttl ≤ now - ts)
  | none => true

/-! ### URL quoting (`requests.utils.quote`)

Modeled at character level for ASCII input (all indicator names and market
symbols in this application are ASCII): unreserved characters and characters
in `safe` pass through, everything else is percent-encoded in uppercase hex. -/

/-- One uppercase hex digit. -/
def hexDigit (n : Nat) : Char :=
  if n < 10 then Char.ofNat ('0'.toNat + n) else Char.ofNat ('A'.toNat + (n - 10))

/-- Is `c` unreserved for percent-encoding (letter, digit, `_.-~`)? -/
def isUnreserved (c : Char) : Bool :=
  c.isAlpha || c.isDigit || c == '_' || c == '.' || c == '-' || c == '~'

/-- `requests.utils.quote(s, safe=...)` on ASCII input. -/
def pyQuote (s : String) (safe : List Char) : String :=
  ⟨(s.data.map fun c =>
      if isUnreserved c || safe.contains c then [c]
      else ['%', hexDigit (c.toNat / 16 % 16), hexDigit (c.toNat % 16)]).flatten⟩

/-! ### ProviderClient row types and methods (src/te_api.py)

Row types model the DataFrame rows after `pd.DataFrame(raw)`.  String-typed
columns that the source indexes directly (`Category`, `Symbol`, ...) are
modeled as always-present `String` fields; the structural-mismatch case of a
missing column is outside the claims.  Numeric columns that the source reads
through `row.get(col, default)` are wrapped in an outer `Option`, whose
`none` models an absent column. -/

/-- A raw row of the country-snapshot payload. -/
structure SnapRaw where
  category : String
  categoryGroup : String
  latestValue : RawNum
  previousValue : RawNum
  unit : String
deriving DecidableEq

/-- A processed snapshot row with the derived `Change` / `PctChange`. -/
structure SnapRow where
  category : String
  categoryGroup : String
  latestValue : Option ℚ
  previousValue : Option ℚ
  change : Option ℚ
  pctChange : Option ℚ
  unit : String
deriving DecidableEq

/-- The `PctChange` lambda of `get_snapshot` (src/te_api.py:47-52):
`(change / previous * 100) if previous and previous != 0 else 0`.
Note the Python truthiness/inequality tests are both `True` for NaN. -/
def snapPctChange (chg prev : Option ℚ) : Option ℚ :=
  if pyTruthy prev && vNe0 prev then vmul (vdiv chg prev) (some 100) else some 0

/-- Per-row computation of `get_snapshot` (src/te_api.py:44-52). -/
def computeSnapRow (r : SnapRaw) : SnapRow :=
  let latest := toNumeric r.latestValue
  let prev := toNumeric r.previousValue
  let chg := vsub latest prev
  { category := r.category
    categoryGroup := r.categoryGroup
    latestValue := latest
    previousValue := prev
    change := chg
    pctChange := snapPctChange chg prev
    unit := r.unit }

/-- `TEClient.get_snapshot` (src/te_api.py:38-53).  The `_get` call has no
exception handler, so a failed fetch propagates as `.error`. -/
def get_snapshot (c : Cache (List SnapRaw)) (now : ℚ)
    (fetch : Except Unit (List SnapRaw)) :
    Except Unit (List SnapRow) × Cache (List SnapRaw) :=
  match teGet c "/country/united%20states" 900 now fetch with
  | (.error e, c1) => (.error e, c1)
  | (.ok raw, c1) =>
    if raw.isEmpty then (.ok [], c1) else (.ok (raw.map computeSnapRow), c1)

/-- `TEClient.get_snapshot_by_group` (src/te_api.py:55-60). -/
def get_snapshot_by_group (c : Cache (List SnapRaw)) (group : String) (now : ℚ)
    (fetch : Except Unit (List SnapRaw)) :
    Except Unit (List SnapRow) × Cache (List SnapRaw) :=
  match get_snapshot c now fetch with
  | (.error e, c1) => (.error e, c1)
  | (.ok rows, c1) => (.ok (rows.filter (fun r => r.categoryGroup == group)), c1)

/-- A raw row of the per-indicator history payload.  `DateTime` is modeled as
an already-parsed timestamp (the `pd.to_datetime` string parse itself is not
modeled). -/
structure HistRaw where
  dateTime : ℚ
  value : RawNum
deriving DecidableEq

/-- A processed history point. -/
structure HistRow where
  dateTime : ℚ
  value : Option ℚ
deriving DecidableEq

/-- `TEClient.get_historical` (src/te_api.py:64-73): parse, coerce `Value`,
sort ascending by `DateTime`.  No exception handler: a failed fetch
propagates. -/
def get_historical (c : Cache (List HistRaw)) (indicator : String) (now : ℚ)
    (fetch : Except Unit (List HistRaw)) :
    Except Unit (List HistRow) × Cache (List HistRaw) :=
  let path :=
    "/historical/country/united%20states/indicator/" ++ pyQuote indicator ['/']
  match teGet c path 3600 now fetch with
  | (.error e, c1) => (.error e, c1)
  | (.ok raw, c1) =>
    if raw.isEmpty then (.ok [], c1)
    else
      (.ok (((raw.map fun r => HistRow.mk r.dateTime (toNumeric r.value))).mergeSort
        (fun a b => a.dateTime ≤ b.dateTime)), c1)

/-- A forecast row; `pd.DataFrame(raw)` applies no processing, so the payload
passes through unchanged (fields not needed by any claim are not listed). -/
structure ForecastRaw where
  category : String
deriving DecidableEq

/-- `TEClient.get_forecasts` (src/te_api.py:77-80).  No exception handler:
a failed fetch propagates. -/
def get_forecasts (c : Cache (List ForecastRaw)) (now : ℚ)
    (fetch : Except Unit (List ForecastRaw)) :
    Except Unit (List ForecastRaw) × Cache (List ForecastRaw) :=
  match teGet c "/forecast/country/united%20states" 3600 now fetch with
  | (.error e, c1) => (.error e, c1)
  | (.ok raw, c1) => (.ok raw, c1)

/-- A raw market-quote row.  Numeric columns carry an outer `Option` for the
column-absent case (the source coerces a column only `if col in df.columns`
and later reads it with `row.get(col, default)`). -/
structure MRowRaw where
  symbol : String
  name : String
  last : Option RawNum
  close : Option RawNum
  dailyChange : Option RawNum
  dailyPct : Option RawNum
  weeklyChange : Option RawNum
  weeklyPct : Option RawNum
  monthlyChange : Option RawNum
  monthlyPct : Option RawNum
  yearlyChange : Option RawNum
  yearlyPct : Option RawNum
deriving DecidableEq

/-- A coerced market-quote row (after `pd.to_numeric` on each present
numeric column; inner `none` models NaN). -/
structure MRow where
  symbol : String
  name : String
  last : Option (Option ℚ)
  close : Option (Option ℚ)
  dailyChange : Option (Option ℚ)
  dailyPct : Option (Option ℚ)
  weeklyChange : Option (Option ℚ)
  weeklyPct : Option (Option ℚ)
  monthlyChange : Option (Option ℚ)
  monthlyPct : Option (Option ℚ)
  yearlyChange : Option (Option ℚ)
  yearlyPct : Option (Option ℚ)
deriving DecidableEq

/-- Column-wise numeric coercion of one market row (src/te_api.py:93-98). -/
def coerceMRow (r : MRowRaw) : MRow :=
  { symbol := r.symbol
    name := r.name
    last := r.last.map toNumeric
    close := r.close.map toNumeric
    dailyChange := r.dailyChange.map toNumeric
    dailyPct := r.dailyPct.map toNumeric
    weeklyChange := r.weeklyChange.map toNumeric
    weeklyPct := r.weeklyPct.map toNumeric
    monthlyChange := r.monthlyChange.map toNumeric
    monthlyPct := r.monthlyPct.map toNumeric
    yearlyChange := r.yearlyChange.map toNumeric
    yearlyPct := r.yearlyPct.map toNumeric }

/-- `TEClient.get_markets` (src/te_api.py:84-99).  The `try/except` converts
any fetch failure into an empty row list; the cache is untouched on
failure. -/
def get_markets (c : Cache (List MRowRaw)) (market_type : String) (now : ℚ)
    (fetch : Except Unit (List MRowRaw)) :
    List MRow × Cache (List MRowRaw) :=
  match teGet c ("/markets/" ++ market_type) 60 now fetch with
  | (.error _, c1) => ([], c1)
  | (.ok raw, c1) =>
    if raw.isEmpty then ([], c1) else (raw.map coerceMRow, c1)

/-- One entry of the curated ticker bar. -/
structure Ticker where
  label : String
  value : Option ℚ
  change : Option ℚ
deriving DecidableEq

/-- `row.get(col, 0)` on a coerced numeric column: `0` when the column is
absent, otherwise the stored float (possibly NaN). -/
def colGet0 (o : Option (Option ℚ)) : Option ℚ :=
  match o with
  | none => some 0
  | some v => v

/-- Build one ticker entry from the first matching row
(`{"label": label, "value": r.get("Last", 0), "change":
r.get("DailyPercentualChange", 0)}`). -/
def mkTicker (label : String) (r : MRow) : Ticker :=
  ⟨label, colGet0 r.last, colGet0 r.dailyPct⟩

/-- Zero-or-one ticker entries from an optional matching row. -/
def optTicker (label : String) (o : Option MRow) : List Ticker :=
  match o with
  | some r => [mkTicker label r]
  | none => []

/-- `df[df["Symbol"] == sym]` followed by `.iloc[0]`: the first row with the
given symbol. -/
def findSymbol (l : List MRow) (sym : String) : Option MRow :=
  l.find? (fun r => r.symbol == sym)

/-- `df[df["Name"].str.contains(pat, case=False, na=False)]` followed by
`.iloc[0]`, for a plain (non-alternation) pattern. -/
def findNameContains (l : List MRow) (pat : String) : Option MRow :=
  l.find? (fun r => strHasSubstr (strLower r.name) (strLower pat))

/-- The DXY lookup of `get_ticker_data` (src/te_api.py:134-137): first by
symbol, then by the regex `"DXY|Dollar Index"` on the name. -/
def findDxy (fx : List MRow) : Option MRow :=
  match findSymbol fx "DXY" with
  | some r => some r
  | none =>
    fx.find? (fun r =>
      strHasSubstr (strLower r.name) (strLower "DXY") ||
      strHasSubstr (strLower r.name) (strLower "Dollar Index"))

/-- `TEClient.get_ticker_data` (src/te_api.py:101-161), as a function of the
four `get_markets` results.  Each market type is handled inside its own
`try/except`, so the four blocks are independent; with typed rows the
in-block pandas operations cannot raise, and a failed fetch already surfaces
as an empty list from `get_markets`. -/
def get_ticker_data (idx bonds fx comm : List MRow) : List Ticker :=
  optTicker "S&P 500" (findSymbol idx "US500") ++
  optTicker "Dow" (findSymbol idx "US30") ++
  optTicker "Nasdaq" (findSymbol idx "US100") ++
  optTicker "VIX" (findSymbol idx "USVIX") ++
  optTicker "10Y Yield" (findNameContains bonds "US 10Y") ++
  optTicker "DXY" (findDxy fx) ++
  optTicker "WTI" (findNameContains comm "Crude Oil")

/-- A raw market-history row; `Date` is modeled as an already-parsed
timestamp (the day-first string parse itself is not modeled). -/
structure MHistRaw where
  date : ℚ
  open_ : Option RawNum
  high : Option RawNum
  low : Option RawNum
  close : Option RawNum
deriving DecidableEq

/-- A coerced market-history (OHLC) row. -/
structure MHistRow where
  date : ℚ
  open_ : Option (Option ℚ)
  high : Option (Option ℚ)
  low : Option (Option ℚ)
  close : Option (Option ℚ)
deriving DecidableEq

/-- `TEClient.get_market_historical` (src/te_api.py:165-179).  The
`try/except` converts any fetch failure into an empty row list. -/
def get_market_historical (c : Cache (List MHistRaw)) (symbol : String)
    (now : ℚ) (fetch : Except Unit (List MHistRaw)) :
    List MHistRow × Cache (List MHistRaw) :=
  let path := "/markets/historical/" ++ pyQuote symbol [':']
  match teGet c path 3600 now fetch with
  | (.error _, c1) => ([], c1)
  | (.ok raw, c1) =>
    if raw.isEmpty then ([], c1)
    else
      (((raw.map fun r =>
          MHistRow.mk r.date (r.open_.map toNumeric) (r.high.map toNumeric)
            (r.low.map toNumeric) (r.close.map toNumeric))).mergeSort
        (fun a b => a.date ≤ b.date), c1)

/-- A raw news row; `date` is the provider's date string, coerced by
`pd.to_datetime(..., errors="coerce")`, modeled as an optional timestamp
(`none` = NaT, from an unparseable date). -/
structure NewsRaw where
  title : String
  description : String
  category : String
  importance : RawNum
  date : Option ℚ
deriving DecidableEq

/-- `sort_values("date", ascending=False)` with NaT placed last. -/
def newsDateLe (a b : NewsRaw) : Bool :=
  match a.date, b.date with
  | some x, some y => decide (y ≤ x)
  | some _, none => true
  | none, some _ => false
  | none, none => true

/-- `TEClient.get_news` (src/te_api.py:183-190).  No exception handler: a
failed fetch propagates. -/
def get_news (c : Cache (List NewsRaw)) (limit : Nat) (now : ℚ)
    (fetch : Except Unit (List NewsRaw)) :
    Except Unit (List NewsRaw) × Cache (List NewsRaw) :=
  let path := "/news/country/united%20states?limit=" ++ toString limit
  match teGet c path 300 now fetch with
  | (.error e, c1) => (.error e, c1)
  | (.ok raw, c1) =>
    if raw.isEmpty then (.ok [], c1)
    else (.ok (raw.mergeSort newsDateLe), c1)

/-- One `<tr>` of the scraped calendar table: its `<th>` texts and its
`<td>` texts (each already `get_text(strip=True)`). -/
structure CalTr where
  ths : List String
  tds : List String
deriving DecidableEq

/-- One parsed calendar event row. -/
structure CalRow where
  date : String
  time : String
  event : String
  actual : String
  previous : String
  consensus : String
  forecast : String
deriving DecidableEq

/-- The row loop of `get_calendar` (src/te_api.py:226-259): header rows set
the running date heading, rows with fewer than 9 cells are skipped, rows
with an empty event are dropped. -/
def parseCalRows (current_date : String) : List CalTr → List CalRow
  | [] => []
  | tr :: rest =>
    match tr.ths with
    | d :: _ => parseCalRows d rest
    | [] =>
      let cells := tr.tds
      if cells.length < 9 then parseCalRows current_date rest
      else
        let event := cells.getD 4 ""
        if event = "" then parseCalRows current_date rest
        else
          { date := current_date
            time := cells.getD 0 ""
            event := event
            actual := cells.getD 5 ""
            previous := cells.getD 6 ""
            consensus := cells.getD 7 ""
            forecast := cells.getD 8 "" } :: parseCalRows current_date rest

/-- `TEClient.get_calendar` (src/te_api.py:194-263): a hand-rolled cache
under the key `"_calendar"` with a 900 s ttl; the fetched page is modeled as
`Option (List CalTr)` where `none` is `soup.find("table", ...)` returning
nothing.  The `try/except` converts any fetch failure into an empty row
list without caching; a parsed result (even an empty one) is cached. -/
def get_calendar (c : Cache (List CalRow)) (now : ℚ)
    (fetch : Except Unit (Option (List CalTr))) :
    List CalRow × Cache (List CalRow) :=
  match cacheLookup c "_calendar" with
  | some (ts, data) =>
    if now - ts < 900 then (data, c)
    else get_calendar_fetch c now fetch
  | none => get_calendar_fetch c now fetch
where
  /-- The fetch-and-parse path of `get_calendar`. -/
  get_calendar_fetch (c : Cache (List CalRow)) (now : ℚ)
      (fetch : Except Unit (Option (List CalTr))) :
      List CalRow × Cache (List CalRow) :=
    match fetch with
    | .error _ => ([], c)
    | .ok none => ([], c)
    | .ok (some table) =>
      let rows := parseCalRows "" table
      (rows, cacheInsert c "_calendar" now rows)

/-! ### NavigationState (src/app.py callbacks 3-6)

The three `dcc.Store`s hold: `current-page` (a string, initially
`"market-index"`), `drilldown-indicator` (a category string or `None`) and
`bond-drilldown` (a `{name, symbol}` dict or `None`). -/

/-- The `bond-drilldown` store payload. -/
structure BondSel where
  name : String
  symbol : String
deriving DecidableEq

/-- The combined navigation state held in the three stores. -/
structure NavState where
  page : String
  drilldown : Option String
  bondDD : Option BondSel
deriving DecidableEq

/-- Effect of the `navigate` callback (src/app.py:263-279) on the navigation
state: a sidebar click stores the clicked link's pageId in the
`current-page` store.  The two drilldown stores have no callback input tied
to sidebar links, so a sidebar click leaves them untouched. -/
def applySidebarSelect (s : NavState) (pageId : String) : NavState :=
  { s with page := pageId }

/-- The view produced by `render_main` (src/app.py:293-321), abstracting the
rendered markup to its kind. -/
inductive View where
  | indicatorDrill (indicator : String)
  | bondDrill (name symbol : String)
  | market (mtype : String)
  | economy (group : String)
  | government
  | calendar
  | news
  | selectPrompt
deriving DecidableEq

/-- The page dispatch of `render_main` (src/app.py:306-321), after the
drilldown checks: `if not page: page = "market-index"`, then prefix
matching. -/
def renderBase (page : Option String) : View :=
  let p := match page with
    | none => "market-index"
    | some q => if q = "" then "market-index" else q
  if strStartsWith p "market-" then .market (strReplace p "market-" "")
  else if strStartsWith p "econ-" then .economy (strReplace p "econ-" "")
  else if p = "government" then .government
  else if p = "calendar" then .calendar
  else if p = "news" then .news
  else .selectPrompt

/-- Python truthiness of a store holding `None` or a string: `None` and the
empty string are falsy. -/
def pyTruthyOptStr : Option String → Bool
  | none => false
  | some s => decide (s ≠ "")

/-- `render_main` (src/app.py:293-321): the indicator drilldown wins, then
the bond drilldown, then the base page.  (A `bond-drilldown` payload is a
two-key dict, hence always truthy when present; the cache-clearing on
`btn-refresh` does not affect which view is chosen.) -/
def render_main (page : Option String) (drilldown : Option String)
    (bondDD : Option BondSel) : View :=
  match drilldown with
  | some d =>
    if d ≠ "" then .indicatorDrill d
    else
      match bondDD with
      | some b => .bondDrill b.name b.symbol
      | none => renderBase page
  | none =>
    match bondDD with
    | some b => .bondDrill b.name b.symbol
    | none => renderBase page

/-- One record of the bond table's `data`, restricted to the two fields read
by the callback; `row.get("Name", "")` maps a missing field to `""`. -/
structure BondTableRow where
  name : String
  symbol : String
deriving DecidableEq

/-- `handle_bond_drilldown` (src/app.py:345-366).  `triggered` is the Dash
`prop_id` of the firing input; `activeCell` is `active_cell["row"]` when the
`active_cell` dict is truthy; the result is the new value of the
`bond-drilldown` store (`no_update` keeps the current value `cur`), and
`.error` models the uncaught `IndexError` of `table_data[active_cell["row"]]`
on an out-of-range index. -/
def handle_bond_drilldown (triggered : String) (activeCell : Option Nat)
    (tableData : List BondTableRow) (cur : Option BondSel) :
    Except Unit (Option BondSel) :=
  if strHasSubstr triggered "btn-back-bond" then .ok none
  else
    match activeCell with
    | some idx =>
      if tableData.isEmpty then .ok cur
      else
        match tableData.get? idx with
        | none => .error ()
        | some row =>
          if row.name ≠ "" && row.symbol ≠ "" then
            .ok (some ⟨row.name, row.symbol⟩)
          else .ok cur
    | none => .ok cur

/-! ### Numeric-token parsing (the `re.search(r"[\d.]+", ...)` / `float()`
pair of `build_yield_curve`) -/

/-- Is `c` matched by the regex character class `[\d.]`? -/
def isDigitOrDot (c : Char) : Bool := c.isDigit || c == '.'

/-- `re.search(r"[\d.]+", s)`: the first maximal run of digits and dots. -/
def firstNumToken : List Char → Option (List Char)
  | [] => none
  | c :: t =>
    if isDigitOrDot c then some (c :: t.takeWhile isDigitOrDot)
    else firstNumToken t

/-- Decimal value of a digit run. -/
def digitsToNat (l : List Char) : Nat :=
  l.foldl (fun n c => n * 10 + (c.toNat - '0'.toNat)) 0

/-- Python `float(tok)` for a token drawn from `[\d.]+`: it succeeds exactly
when the token has at least one digit and at most one dot. -/
def pyFloatOfToken (tok : List Char) : Option ℚ :=
  if tok.any Char.isDigit && decide ((tok.filter (· == '.')).length ≤ 1) then
    let intPart := tok.takeWhile (· ≠ '.')
    let fracPart := (tok.dropWhile (· ≠ '.')).drop 1
    some ((digitsToNat intPart : ℚ) +
      (digitsToNat fracPart : ℚ) / ((10 : ℚ) ^ fracPart.length))
  else none

/-! ### `build_yield_curve` (src/app.py:1073-1129) -/

/-- One point of the yield curve (`{"tenor": ..., "months": ..., "yield":
...}`); the chart markup around it is not modeled. -/
structure TenorPoint where
  tenor : String
  months : ℚ
  yld : Option ℚ
deriving DecidableEq

/-- The per-row body of the `build_yield_curve` loop (src/app.py:1078-1103):
`none` means the row is skipped. -/
def parseTenor (r : MRow) : Option TenorPoint :=
  let name := r.name
  if !strStartsWith name "US " then none
  else
    let tenorStr := strReplace name "US " ""
    if strHasSubstr tenorStr "TIPS" then none
    else if strHasSubstr (strUpper tenorStr) "BOND" then none
    else
      match r.last with
      | none => none
      | some last =>
        match firstNumToken tenorStr.data with
        | none => none
        | some tok =>
          match pyFloatOfToken tok with
          | none => none
          | some num =>
            if strHasSubstr tenorStr "W" then
              some ⟨tenorStr, num / (433 / 100 : ℚ), last⟩
            else if strHasSubstr tenorStr "M" then
              some ⟨tenorStr, num, last⟩
            else if strHasSubstr tenorStr "Y" then
              some ⟨tenorStr, num * 12, last⟩
            else none

/-- `build_yield_curve` (src/app.py:1073-1129), up to the plotted point
list: collect the parseable tenor rows and sort them ascending by months
(`tenors.sort(key=lambda x: x["months"])` is a stable ascending sort). -/
def build_yield_curve (bondRows : List MRow) : List TenorPoint :=
  (bondRows.filterMap parseTenor).mergeSort (fun a b => a.months ≤ b.months)

/-! ### Python fixed-point formatting (`f"{x:,.nf}"` and `f"{x:.nf}"`)

Python's `format` rounds to `n` decimals with round-half-to-even, prints a
minus sign for negative values, pads the fraction with zeros, and for the
`,` variant groups the integer digits in threes. -/

/-- The decimal digit character for `n % 10`. -/
def digitChar (n : Nat) : Char := Char.ofNat ('0'.toNat + n % 10)

/-- Decimal digits of `n`, least significant first (fuel-based). -/
def natDigitsRevAux : Nat → Nat → List Char
  | 0, _ => []
  | fuel + 1, n =>
    if n < 10 then [digitChar n]
    else digitChar (n % 10) :: natDigitsRevAux fuel (n / 10)

/-- Decimal digits of `n`, least significant first. -/
def natDigitsRev (n : Nat) : List Char := natDigitsRevAux (n + 1) n

/-- Insert a `,` after every three characters of a reversed digit list. -/
def withCommasRev (l : List Char) : List Char :=
  if l.length ≤ 3 then l
  else l.take 3 ++ ',' :: withCommasRev (l.drop 3)
termination_by l.length
decreasing_by simp only [List.length_drop]; omega

/-- The decimal digits of `n` with thousands grouping. -/
def natGrouped (n : Nat) : List Char := (withCommasRev (natDigitsRev n)).reverse

/-- The plain decimal digits of `n`. -/
def natPlain (n : Nat) : List Char := (natDigitsRev n).reverse

/-- Round-half-to-even to an integer (Python / IEEE rounding of `format`). -/
def roundHalfEven (q : ℚ) : ℤ :=
  let f := ⌊q⌋
  if q - f < 1 / 2 then f
  else if 1 / 2 < q - f then f + 1
  else if f % 2 = 0 then f else f + 1

/-- Left-pad a digit list with zeros to length `n`. -/
def padZeros (l : List Char) (n : Nat) : List Char :=
  List.replicate (n - l.length) '0' ++ l

/-- Shared body of the two fixed-point formats: `group` selects thousands
grouping of the integer part. -/
def formatFixedCore (x : ℚ) (nd : Nat) (group : Bool) : String :=
  let scaled := roundHalfEven (x * (10 : ℚ) ^ nd)
  let m := scaled.natAbs
  let intPart := m / 10 ^ nd
  let fracPart := m % 10 ^ nd
  let sign : List Char := if scaled < 0 then ['-'] else []
  let intChars := if group then natGrouped intPart else natPlain intPart
  let fracChars : List Char :=
    if nd = 0 then [] else '.' :: padZeros (natPlain fracPart) nd
  ⟨sign ++ intChars ++ fracChars⟩

/-- Python `f"{x:,.nd f}"` (grouped fixed-point). -/
def formatFixedGrouped (x : ℚ) (nd : Nat) : String := formatFixedCore x nd true

/-- Python `f"{x:.nd f}"` (ungrouped fixed-point). -/
def formatFixedPlain (x : ℚ) (nd : Nat) : String := formatFixedCore x nd false

/-- `_format_stat_value` (src/app.py:446-471).  `val` is `none` for NaN
(`pd.isna`); `unit` is `none` when the row has no unit (Python-falsy, mapped
to `""` by `str(unit) if unit else ""`, as is an empty unit string). -/
def _format_stat_value (val : Option ℚ) (unit : Option String) : String :=
  let unitStr := match unit with
    | none => ""
    | some u => u
  match val with
  | none => "N/A"
  | some v =>
    if strHasSubstr unitStr "Billion" && decide (1000 ≤ |v|) then
      "$" ++ formatFixedGrouped (v / 1000) 1 ++ "T"
    else if strHasSubstr unitStr "Billion" then
      "$" ++ formatFixedGrouped v 1 ++ "B"
    else if strHasSubstr unitStr "Million" && decide (1000000 ≤ |v|) then
      "$" ++ formatFixedGrouped (v / 1000000) 2 ++ "T"
    else if strHasSubstr unitStr "Million" && decide (1000 ≤ |v|) then
      "$" ++ formatFixedGrouped (v / 1000) 1 ++ "B"
    else if strHasSubstr unitStr "Million" then
      "$" ++ formatFixedGrouped v 0 ++ "M"
    else if strHasSubstr (strLower unitStr) "percent" || unitStr = "percent" then
      formatFixedGrouped v 1 ++ "%"
    else if strHasSubstr unitStr "USD/Hour" then
      "$" ++ formatFixedPlain v 2 ++ "/hr"
    else if strHasSubstr unitStr "USD" && !strHasSubstr (strLower unitStr) "per" then
      "$" ++ formatFixedGrouped v 1
    else if strHasSubstr (strLower unitStr) "points" then
      formatFixedGrouped v 1
    else if strHasSubstr unitStr "Thousand" then
      formatFixedGrouped v 0 ++ "K"
    else formatFixedGrouped v 2

/-- Zero-or-one ticker-bar labels from an optional matching row (the label
projection of `optTicker`). -/
def optLabel (label : String) (o : Option MRow) : List String :=
  if o.isSome then [label] else []

/-! ## Theorems -/

/-! ### Shared cache lemmas -/

theorem cacheLookup_cacheInsert_self {α : Type} (c : Cache α) (k : String)
    (ts : ℚ) (v : α) : cacheLookup (cacheInsert c k ts v) k = some (ts, v) := by
  simp [cacheLookup, cacheInsert, List.find?_cons]

theorem teGet_hit {α : Type} {c : Cache α} {p : String} {ttl now ts : ℚ}
    {v : α} (hl : cacheLookup c p = some (ts, v)) (hfresh : now - ts < ttl)
    (fetch : Except Unit α) : teGet c p ttl now fetch = (.ok v, c) := by
  simp [teGet, hl, hfresh]

theorem teGet_usesFetch_ok {α : Type} {c : Cache α} {p : String}
    {ttl now : ℚ} (h : teGetUsesFetch c p ttl now = true) (d : α) :
    teGet c p ttl now (.ok d) = (.ok d, cacheInsert c p now d) := by
  unfold teGetUsesFetch at h
  unfold teGet
  cases hl : cacheLookup c p with
  | none => simp
  | some x =>
    obtain ⟨ts, w⟩ := x
    rw [hl] at h
    simp only [decide_eq_true_eq] at h
    simp [not_lt.mpr h]

theorem teGet_usesFetch_err {α : Type} {c : Cache α} {p : String}
    {ttl now : ℚ} (h : teGetUsesFetch c p ttl now = true) :
    teGet c p ttl now (.error ()) = (.error (), c) := by
  unfold teGetUsesFetch at h
  unfold teGet
  cases hl : cacheLookup c p with
  | none => simp
  | some x =>
    obtain ⟨ts, w⟩ := x
    rw [hl] at h
    simp only [decide_eq_true_eq] at h
    simp [not_lt.mpr h]

/-- C3: a live (younger than ttl) entry is returned as-is for any fetch
outcome (in particular, without consulting the loader); an expired entry
(`ttl ≤ now - storedAt`) is ignored, the loader result is stored under the
current timestamp; and a miss-then-hit pair of calls within ttl serves the
second call from the cache, so the pair consults the loader exactly once. -/
theorem te_C3 {α : Type} (c : Cache α) (key : String) (ttl now : ℚ)
    (_httl : 0 < ttl) :
    (∀ (ts : ℚ) (v : α), cacheLookup c key = some (ts, v) → now - ts < ttl →
      ∀ fetch, teGet c key ttl now fetch = (.ok v, c)) ∧
    (∀ (ts : ℚ) (v : α), cacheLookup c key = some (ts, v) → ttl ≤ now - ts →
      ∀ d, teGet c key ttl now (.ok d) = (.ok d, cacheInsert c key now d) ∧
        cacheLookup (cacheInsert c key now d) key = some (now, d)) ∧
    (∀ d, teGetUsesFetch c key ttl now = true →
      teGet c key ttl now (.ok d) = (.ok d, cacheInsert c key now d) ∧
      ∀ (now2 : ℚ) (fetch2 : Except Unit α), now2 - now < ttl →
        teGet (cacheInsert c key now d) key ttl now2 fetch2 =
          (.ok d, cacheInsert c key now d)) := by
  refine ⟨fun ts v hl hfresh fetch => teGet_hit hl hfresh fetch,
    fun ts v hl hexp d => ?_, fun d h => ?_⟩
  · have huse : teGetUsesFetch c key ttl now = true := by
      simp [teGetUsesFetch, hl, hexp]
    exact ⟨teGet_usesFetch_ok huse d, cacheLookup_cacheInsert_self ..⟩
  · refine ⟨teGet_usesFetch_ok h d, fun now2 fetch2 hfresh => ?_⟩
    exact teGet_hit (cacheLookup_cacheInsert_self ..) hfresh fetch2

/-- C3 witness: a cache holding (`"k"` ↦ stored at 0, value 42) read at time
5 with ttl 10 returns 42 and ignores the loader result 7. -/
theorem te_C3_witness :
    teGet [("k", (0 : ℚ), (42 : ℕ))] "k" 10 5 (.ok 7) =
      (.ok 42, [("k", (0 : ℚ), (42 : ℕ))]) :=
  (te_C3 [("k", (0 : ℚ), (42 : ℕ))] "k" 10 5 (by norm_num)).1 0 42 (by rfl)
    (by norm_num) (.ok 7)

/-- C6: when a `_get` call reaches the loader and the loader fails, the
error is propagated and the cache is returned unchanged (the failure is not
cached); any later call at a time `now2 ≥ now` reaches the loader again. -/
theorem te_C6 {α : Type} (c : Cache α) (key : String) (ttl now : ℚ)
    (h : teGetUsesFetch c key ttl now = true) :
    teGet c key ttl now (.error ()) = (.error (), c) ∧
    ∀ now2 : ℚ, now ≤ now2 → teGetUsesFetch c key ttl now2 = true := by
  refine ⟨teGet_usesFetch_err h, fun now2 hle => ?_⟩
  unfold teGetUsesFetch at h ⊢
  cases hl : cacheLookup c key with
  | none => rfl
  | some x =>
    obtain ⟨ts, w⟩ := x
    rw [hl] at h
    simp only [decide_eq_true_eq] at h ⊢
    linarith

/-- C6 witness: an expired entry (stored at 0, ttl 3, read at 5) leads to a
loader call whose failure leaves the cache unchanged, and a retry at time 6
reaches the loader again. -/
theorem te_C6_witness :
    teGet [("k", (0 : ℚ), (99 : ℕ))] "k" 3 5 (.error ()) =
      (.error (), [("k", (0 : ℚ), (99 : ℕ))]) ∧
    teGetUsesFetch [("k", (0 : ℚ), (99 : ℕ))] "k" 3 6 = true :=
  ⟨(te_C6 [("k", (0 : ℚ), (99 : ℕ))] "k" 3 5 (by with_unfolding_all rfl)).1,
   (te_C6 [("k", (0 : ℚ), (99 : ℕ))] "k" 3 5 (by with_unfolding_all rfl)).2 6
     (by norm_num)⟩

/-- C1 counterexample: `get_snapshot` has no exception handler around its
`_get` call, so on a cache miss a failed fetch propagates as an error
instead of producing an empty row sequence. -/
theorem te_C1_counterexample :
    (get_snapshot [] 0 (.error ())).1 = .error () ∧
    (get_snapshot [] 0 (.error ())).1 ≠ .ok [] :=
  ⟨rfl, fun h => Except.noConfusion h⟩

/-- C1 (amended): of the seven data-kind methods, only the market-quotes,
market-OHLC-history and calendar methods catch a failed fetch and return an
empty row sequence; the snapshot, historical-series, forecasts and news
methods propagate the fetch error to their caller.  (The fetch outcome is
only consulted when the call reaches the network, i.e. on a cache miss or
an expired entry.) -/
theorem te_C1_amended (now : ℚ) :
    (∀ c : Cache (List SnapRaw),
      teGetUsesFetch c "/country/united%20states" 900 now = true →
      (get_snapshot c now (.error ())).1 = .error ()) ∧
    (∀ (c : Cache (List HistRaw)) (indicator : String),
      teGetUsesFetch c
        ("/historical/country/united%20states/indicator/" ++
          pyQuote indicator ['/']) 3600 now = true →
      (get_historical c indicator now (.error ())).1 = .error ()) ∧
    (∀ c : Cache (List ForecastRaw),
      teGetUsesFetch c "/forecast/country/united%20states" 3600 now = true →
      (get_forecasts c now (.error ())).1 = .error ()) ∧
    (∀ (c : Cache (List NewsRaw)) (limit : Nat),
      teGetUsesFetch c ("/news/country/united%20states?limit=" ++
        toString limit) 300 now = true →
      (get_news c limit now (.error ())).1 = .error ()) ∧
    (∀ (c : Cache (List MRowRaw)) (market_type : String),
      teGetUsesFetch c ("/markets/" ++ market_type) 60 now = true →
      (get_markets c market_type now (.error ())).1 = []) ∧
    (∀ (c : Cache (List MHistRaw)) (symbol : String),
      teGetUsesFetch c ("/markets/historical/" ++ pyQuote symbol [':'])
        3600 now = true →
      (get_market_historical c symbol now (.error ())).1 = []) ∧
    (∀ c : Cache (List CalRow),
      teGetUsesFetch c "_calendar" 900 now = true →
      (get_calendar c now (.error ())).1 = []) := by
  refine ⟨fun c h => ?_, fun c ind h => ?_, fun c h => ?_, fun c lim h => ?_,
    fun c mt h => ?_, fun c sym h => ?_, fun c h => ?_⟩
  · simp [get_snapshot, teGet_usesFetch_err h]
  · simp [get_historical, teGet_usesFetch_err h]
  · simp [get_forecasts, teGet_usesFetch_err h]
  · simp [get_news, teGet_usesFetch_err h]
  · simp [get_markets, teGet_usesFetch_err h]
  · simp [get_market_historical, teGet_usesFetch_err h]
  · unfold get_calendar
    unfold teGetUsesFetch at h
    cases hl : cacheLookup c "_calendar" with
    | none => simp [hl, get_calendar.get_calendar_fetch]
    | some x =>
      obtain ⟨ts, w⟩ := x
      rw [hl] at h
      simp only [decide_eq_true_eq] at h
      simp [hl, not_lt.mpr h, get_calendar.get_calendar_fetch]

/-- C1 witness: with an empty cache (so the fetch is reached) at time 0, a
failed market fetch yields an empty row list while a failed news fetch
propagates the error. -/
theorem te_C1_witness :
    (get_markets [] "bond" 0 (.error ())).1 = [] ∧
    (get_news [] 25 0 (.error ())).1 = .error () :=
  ⟨(te_C1_amended 0).2.2.2.2.1 [] "bond" rfl,
   (te_C1_amended 0).2.2.2.1 [] 25 rfl⟩

/-- C2 counterexample: with an indicator drilldown active, a sidebar click
(to `"market-index"`) stores the new page but does not clear the drilldown
slot, and the next render still shows the indicator drilldown rather than
the selected base view. -/
theorem te_C2_counterexample :
    (applySidebarSelect ⟨"econ-GDP", some "GDP Growth Rate", none⟩
      "market-index").drilldown = some "GDP Growth Rate" ∧
    render_main (some "market-index") (some "GDP Growth Rate") none =
      View.indicatorDrill "GDP Growth Rate" ∧
    render_main (some "market-index") (some "GDP Growth Rate") none ≠
      View.market "index" := by
  refine ⟨rfl, by with_unfolding_all rfl, ?_⟩
  rw [show render_main (some "market-index") (some "GDP Growth Rate") none =
    View.indicatorDrill "GDP Growth Rate" by with_unfolding_all rfl]
  intro h
  exact View.noConfusion h

/-- C2 (amended): a sidebar click sets the base page from the clicked
pageId and leaves both drilldown slots unchanged; consequently the next
render is the same as before the click up to the new base page (in
particular, an active drilldown still wins). -/
theorem te_C2_amended (s : NavState) (pageId : String) :
    (applySidebarSelect s pageId).page = pageId ∧
    (applySidebarSelect s pageId).drilldown = s.drilldown ∧
    (applySidebarSelect s pageId).bondDD = s.bondDD ∧
    render_main (some pageId) (applySidebarSelect s pageId).drilldown
        (applySidebarSelect s pageId).bondDD =
      render_main (some pageId) s.drilldown s.bondDD :=
  ⟨rfl, rfl, rfl, rfl⟩

/-- C4 counterexample: a row whose `PreviousValue` fails numeric coercion
(NaN) gets `PctChange = NaN`, not the claimed `0`: Python's
`if r["PreviousValue"] and r["PreviousValue"] != 0` is `True` for NaN, so
the division branch runs and propagates NaN. -/
theorem te_C4_counterexample :
    (computeSnapRow ⟨"GDP", "GDP", RawNum.fin 5, RawNum.nonfin,
      "percent"⟩).previousValue = none ∧
    (computeSnapRow ⟨"GDP", "GDP", RawNum.fin 5, RawNum.nonfin,
      "percent"⟩).pctChange = none ∧
    (computeSnapRow ⟨"GDP", "GDP", RawNum.fin 5, RawNum.nonfin,
      "percent"⟩).pctChange ≠ some 0 := by
  refine ⟨rfl, by with_unfolding_all rfl, ?_⟩
  rw [show (computeSnapRow ⟨"GDP", "GDP", RawNum.fin 5, RawNum.nonfin,
    "percent"⟩).pctChange = none by with_unfolding_all rfl]
  intro h
  exact Option.noConfusion h

/-- C4 (amended): `Change = LatestValue - PreviousValue` when both coerce;
`PctChange = Change / PreviousValue * 100` when `PreviousValue` coerces to
a nonzero number, `0` when it coerces to `0`, and NaN (not `0`) when it is
missing, in which case `Change` is NaN too; the computation is total. -/
theorem te_C4_amended (r : SnapRaw) :
    (∀ lq pq : ℚ, toNumeric r.latestValue = some lq →
      toNumeric r.previousValue = some pq →
      (computeSnapRow r).change = some (lq - pq) ∧
      (pq ≠ 0 → (computeSnapRow r).pctChange = some ((lq - pq) / pq * 100)) ∧
      (pq = 0 → (computeSnapRow r).pctChange = some 0)) ∧
    (toNumeric r.previousValue = none →
      (computeSnapRow r).change = none ∧
      (computeSnapRow r).pctChange = none) := by
  constructor
  · intro lq pq hl hp
    refine ⟨?_, ?_, ?_⟩
    · simp [computeSnapRow, hl, hp, vsub]
    · intro hpq
      simp [computeSnapRow, hl, hp, vsub, snapPctChange, pyTruthy, vNe0, hpq,
        vdiv, vmul]
    · intro hpq
      simp [computeSnapRow, hl, hp, vsub, snapPctChange, pyTruthy, vNe0, hpq]
  · intro hp
    constructor
    · cases hlat : toNumeric r.latestValue <;>
        simp [computeSnapRow, hp, hlat, vsub]
    · cases hlat : toNumeric r.latestValue <;>
        simp [computeSnapRow, hp, hlat, vsub, snapPctChange, pyTruthy, vNe0,
          vdiv, vmul]

/-- C4 witness: the spec's own example, `latest = 110, previous = 100`,
gives `Change = 10` and `PctChange = 10`. -/
theorem te_C4_witness :
    (computeSnapRow ⟨"GDP", "GDP", RawNum.fin 110, RawNum.fin 100,
      "percent"⟩).change = some (110 - 100) ∧
    (computeSnapRow ⟨"GDP", "GDP", RawNum.fin 110, RawNum.fin 100,
      "percent"⟩).pctChange = some ((110 - 100) / 100 * 100) :=
  ⟨((te_C4_amended ⟨"GDP", "GDP", RawNum.fin 110, RawNum.fin 100,
      "percent"⟩).1 110 100 rfl rfl).1,
   ((te_C4_amended ⟨"GDP", "GDP", RawNum.fin 110, RawNum.fin 100,
      "percent"⟩).1 110 100 rfl rfl).2.1 (by norm_num)⟩

/-- C5: `render_main` precedence.  A drilldown slot is "set" in the Python
sense (truthy): the indicator slot holding `None` or the empty string
counts as empty, and a bond slot is a two-key dict, truthy whenever
present.  A set indicator slot forces the indicator drilldown regardless of
the page and the bond slot; otherwise a set bond slot forces the bond
drilldown; only with both slots empty is the base view of the current page
rendered. -/
theorem te_C5 (page : Option String) (dd : Option String)
    (bond : Option BondSel) :
    (∀ d : String, dd = some d → d ≠ "" →
      render_main page dd bond = View.indicatorDrill d) ∧
    (pyTruthyOptStr dd = false → ∀ b : BondSel, bond = some b →
      render_main page dd bond = View.bondDrill b.name b.symbol) ∧
    (pyTruthyOptStr dd = false → bond = none →
      render_main page dd bond = renderBase page) := by
  refine ⟨fun d hdd hne => ?_, fun hdd b hb => ?_, fun hdd hb => ?_⟩
  · subst hdd
    simp [render_main, hne]
  · subst hb
    cases dd with
    | none => simp [render_main]
    | some d =>
      simp only [pyTruthyOptStr, decide_eq_false_iff_not, not_not] at hdd
      simp [render_main, hdd]
  · subst hb
    cases dd with
    | none => simp [render_main]
    | some d =>
      simp only [pyTruthyOptStr, decide_eq_false_iff_not, not_not] at hdd
      simp [render_main, hdd]

/-- C5 witness: with the indicator slot set the indicator drilldown wins
over both a set bond slot and the page; with only the bond slot set the
bond drilldown wins; with both slots empty the base economy view renders. -/
theorem te_C5_witness :
    render_main (some "market-bond") (some "GDP")
      (some ⟨"US 10Y", "USGG10YR:IND"⟩) = View.indicatorDrill "GDP" ∧
    render_main (some "market-bond") none
      (some ⟨"US 10Y", "USGG10YR:IND"⟩) =
        View.bondDrill "US 10Y" "USGG10YR:IND" ∧
    render_main (some "econ-GDP") none none = renderBase (some "econ-GDP") :=
  ⟨(te_C5 (some "market-bond") (some "GDP")
      (some ⟨"US 10Y", "USGG10YR:IND"⟩)).1 "GDP" rfl (by decide),
   (te_C5 (some "market-bond") none
      (some ⟨"US 10Y", "USGG10YR:IND"⟩)).2.1 rfl ⟨"US 10Y", "USGG10YR:IND"⟩ rfl,
   (te_C5 (some "econ-GDP") none none).2.2 rfl rfl⟩

/-- C9: a bond-table row click (any trigger other than the bond back
button) sets the bond-drilldown slot to the selected row's name and symbol
exactly when both are non-empty; when either is empty the callback returns
`no_update` and the slot keeps its current value. -/
theorem te_C9 (triggered : String) (idx : ℕ) (tableData : List BondTableRow)
    (cur : Option BondSel) (row : BondTableRow)
    (hT : strHasSubstr triggered "btn-back-bond" = false)
    (hrow : tableData[idx]? = some row) :
    (row.name ≠ "" → row.symbol ≠ "" →
      handle_bond_drilldown triggered (some idx) tableData cur =
        .ok (some ⟨row.name, row.symbol⟩)) ∧
    ((row.name = "" ∨ row.symbol = "") →
      handle_bond_drilldown triggered (some idx) tableData cur = .ok cur) := by
  have hne : tableData.isEmpty = false := by
    cases tableData with
    | nil => simp at hrow
    | cons a l => rfl
  
  constructor
  · intro hn hs
    simp [handle_bond_drilldown, hT, hne, hrow, hn, hs]
  · intro hor
    rcases hor with h | h <;>
      simp [handle_bond_drilldown, hT, hne, hrow, h]

/-- C9 witness: on the bond table, clicking a row with both fields present
sets the slot, and clicking a row with an empty symbol leaves the slot (here
already pointing at another bond) unchanged. -/
theorem te_C9_witness :
    handle_bond_drilldown "bond-table.active_cell" (some 0)
      [⟨"US 10Y", "USGG10YR:IND"⟩] none =
        .ok (some ⟨"US 10Y", "USGG10YR:IND"⟩) ∧
    handle_bond_drilldown "bond-table.active_cell" (some 0)
      [⟨"US 10Y", ""⟩] (some ⟨"US 2Y", "USGG2YR:IND"⟩) =
        .ok (some ⟨"US 2Y", "USGG2YR:IND"⟩) :=
  ⟨(te_C9 "bond-table.active_cell" 0 [⟨"US 10Y", "USGG10YR:IND"⟩] none
      ⟨"US 10Y", "USGG10YR:IND"⟩ (by decide) rfl).1 (by decide) (by decide),
   (te_C9 "bond-table.active_cell" 0 [⟨"US 10Y", ""⟩]
      (some ⟨"US 2Y", "USGG2YR:IND"⟩) ⟨"US 10Y", ""⟩ (by decide) rfl).2
      (Or.inr rfl)⟩

/-- C7: `build_yield_curve` output is always sorted ascending by months; a
row whose tenor cannot be parsed is silently dropped (so the function never
fails); a row not starting with `"US "` or carrying a TIPS label is never
kept; week/month/year tenors convert at `÷ 4.33` / `× 1` / `× 12` months, as
shown on a `4W` row; and on the spec's example the tenors `3M`, `2Y`, `10Y`
(given here in scrambled order) come out ordered `3M, 2Y, 10Y` with months
`3, 24, 120`. -/
theorem te_C7 :
    (∀ rows : List MRow, (build_yield_curve rows).Pairwise
      (fun a b => a.months ≤ b.months)) ∧
    (∀ (r : MRow) (rows : List MRow), parseTenor r = none →
      build_yield_curve (r :: rows) = build_yield_curve rows) ∧
    (∀ r : MRow, strStartsWith r.name "US " = false → parseTenor r = none) ∧
    (∀ r : MRow, strHasSubstr (strReplace r.name "US " "") "TIPS" = true →
      parseTenor r = none) ∧
    parseTenor ⟨"", "US 4W", some (some 5), none, none, none, none, none,
      none, none, none, none⟩ = some ⟨"4W", 4 / (433 / 100), some 5⟩ ∧
    build_yield_curve
      [⟨"", "US 10Y", some (some (23 / 5)), none, none, none, none, none,
        none, none, none, none⟩,
       ⟨"", "US 3M", some (some (51 / 10)), none, none, none, none, none,
        none, none, none, none⟩,
       ⟨"", "US 2Y", some (some (43 / 10)), none, none, none, none, none,
        none, none, none, none⟩] =
      [⟨"3M", 3, some (51 / 10)⟩, ⟨"2Y", 24, some (43 / 10)⟩,
       ⟨"10Y", 120, some (23 / 5)⟩] := by
  refine ⟨fun rows => ?_, fun r rows h => ?_, fun r h => ?_, fun r h => ?_,
    ?_, ?_⟩
  · have h := @List.sorted_mergeSort TenorPoint
      (fun a b => decide (a.months ≤ b.months))
      (by intro a b c h1 h2; simp only [decide_eq_true_eq] at *;
          exact le_trans h1 h2)
      (by intro a b; simpa using le_total a.months b.months)
      (rows.filterMap parseTenor)
    exact List.Pairwise.imp (by intro a b hb; simpa using hb) h
  · simp [build_yield_curve, List.filterMap_cons, h]
  · simp [parseTenor, h]
  · cases hs : strStartsWith r.name "US " with
    | false => simp [parseTenor, hs]
    | true => simp [parseTenor, hs, h]
  · with_unfolding_all rfl
  · with_unfolding_all rfl

/-- C7 witness: dropping an unparseable row — a generic `"US BOND"` label —
leaves the curve of the remaining rows unchanged. -/
theorem te_C7_witness :
    build_yield_curve
      [⟨"", "US BOND", some (some 1), none, none, none, none, none, none,
        none, none, none⟩,
       ⟨"", "US 5Y", some (some 4), none, none, none, none, none, none,
        none, none, none⟩] =
      build_yield_curve
      [⟨"", "US 5Y", some (some 4), none, none, none, none, none, none,
        none, none, none⟩] :=
  te_C7.2.1 ⟨"", "US BOND", some (some 1), none, none, none, none, none,
      none, none, none, none⟩
    [⟨"", "US 5Y", some (some 4), none, none, none, none, none, none, none,
      none, none⟩] (by with_unfolding_all rfl)

/-! ### Formatting helper lemmas -/

theorem natDigitsRev_ne_nil (n : Nat) : natDigitsRev n ≠ [] := by
  unfold natDigitsRev natDigitsRevAux
  split <;> simp

theorem withCommasRev_ne_nil {l : List Char} (h : l ≠ []) :
    withCommasRev l ≠ [] := by
  unfold withCommasRev
  split
  · exact h
  · simp

theorem natGrouped_ne_nil (n : Nat) : natGrouped n ≠ [] := by
  unfold natGrouped
  simp [withCommasRev_ne_nil (natDigitsRev_ne_nil n)]

theorem natPlain_ne_nil (n : Nat) : natPlain n ≠ [] := by
  unfold natPlain
  simp [natDigitsRev_ne_nil n]

theorem formatFixedCore_ne_empty (x : ℚ) (nd : Nat) (g : Bool) :
    formatFixedCore x nd g ≠ "" := by
  intro h
  have hd : (formatFixedCore x nd g).data = [] := by rw [h]
  simp only [formatFixedCore] at hd
  rcases List.append_eq_nil.mp hd with ⟨h1, h2⟩
  rcases List.append_eq_nil.mp h1 with ⟨hs, hi⟩
  cases g with
  | true => simp only [if_pos rfl] at hi; exact natGrouped_ne_nil _ hi
  | false =>
    simp only [Bool.false_eq_true, if_neg, if_false] at hi
    exact natPlain_ne_nil _ hi

theorem formatFixedGrouped_ne_empty (x : ℚ) (nd : Nat) :
    formatFixedGrouped x nd ≠ "" := formatFixedCore_ne_empty x nd true

theorem formatFixedPlain_ne_empty (x : ℚ) (nd : Nat) :
    formatFixedPlain x nd ≠ "" := formatFixedCore_ne_empty x nd false

theorem str_mid_ne_empty (p m s : String) (h : m ≠ "") : p ++ m ++ s ≠ "" := by
  intro he
  apply h
  have hd : (p ++ m ++ s).data = [] := by rw [he]
  rw [String.data_append, String.data_append] at hd
  rcases List.append_eq_nil.mp hd with ⟨h1, _⟩
  rcases List.append_eq_nil.mp h1 with ⟨_, hm⟩
  exact congrArg String.mk hm

theorem str_left_ne_empty (p m : String) (h : m ≠ "") : p ++ m ≠ "" := by
  intro he
  apply h
  have hd : (p ++ m).data = [] := by rw [he]
  rw [String.data_append] at hd
  exact congrArg String.mk (List.append_eq_nil.mp hd).2

theorem str_right_ne_empty (m s : String) (h : m ≠ "") : m ++ s ≠ "" := by
  intro he
  apply h
  have hd : (m ++ s).data = [] := by rw [he]
  rw [String.data_append] at hd
  exact congrArg String.mk (List.append_eq_nil.mp hd).1

/-- C8: `_format_stat_value` realizes the two spec examples
(`2,500,000` with a `"Million"` unit is rescaled to `"$2.50T"`; `45.2`
with a `"percent"` unit becomes `"45.2%"`); it always produces a non-empty
string (as a Lean function it is total by construction); and every unit
string matching none of the substring patterns falls back to the generic
two-decimal thousands-grouped format. -/
theorem te_C8 :
    _format_stat_value (some 2500000) (some "Million") = "$2.50T" ∧
    _format_stat_value (some (226 / 5)) (some "percent") = "45.2%" ∧
    (∀ (v : Option ℚ) (u : Option String), _format_stat_value v u ≠ "") ∧
    (∀ (v : ℚ) (u : String),
      strHasSubstr u "Billion" = false → strHasSubstr u "Million" = false →
      strHasSubstr (strLower u) "percent" = false → u ≠ "percent" →
      strHasSubstr u "USD/Hour" = false → strHasSubstr u "USD" = false →
      strHasSubstr (strLower u) "points" = false →
      strHasSubstr u "Thousand" = false →
      _format_stat_value (some v) (some u) = formatFixedGrouped v 2) := by
  refine ⟨by with_unfolding_all rfl, by with_unfolding_all rfl,
    fun v u => ?_, fun v u h1 h2 h3 h4 h5 h6 h7 h8 => ?_⟩
  · cases v with
    | none => simp [_format_stat_value]
    | some q =>
      simp only [_format_stat_value]
      repeat' split
      all_goals first
        | exact str_mid_ne_empty _ _ _ (formatFixedGrouped_ne_empty _ _)
        | exact str_mid_ne_empty _ _ _ (formatFixedPlain_ne_empty _ _)
        | exact str_right_ne_empty _ _ (formatFixedGrouped_ne_empty _ _)
        | exact str_left_ne_empty _ _ (formatFixedGrouped_ne_empty _ _)
        | exact formatFixedGrouped_ne_empty _ _
  · simp [_format_stat_value, h1, h2, h3, h4, h5, h6, h7, h8]

/-- C8 witness: the unmatched unit `"Bbl"` falls back to the generic
format, rendering `1234.5` as `"1,234.50"`. -/
theorem te_C8_witness :
    _format_stat_value (some (2469 / 2)) (some "Bbl") =
      formatFixedGrouped (2469 / 2) 2 ∧
    formatFixedGrouped ((2469 : ℚ) / 2) 2 = "1,234.50" :=
  ⟨te_C8.2.2.2 (2469 / 2) "Bbl" (by decide) (by decide) (by decide)
      (by decide) (by decide) (by decide) (by decide) (by decide),
   by with_unfolding_all rfl⟩

/-! ### Ticker helper lemmas -/

theorem map_label_optTicker (label : String) (o : Option MRow) :
    (optTicker label o).map Ticker.label = optLabel label o := by
  cases o <;> simp [optTicker, optLabel, mkTicker]

theorem length_optTicker_le (label : String) (o : Option MRow) :
    (optTicker label o).length ≤ 1 := by
  cases o <;> simp [optTicker]

theorem optLabel_sublist (label : String) (o : Option MRow) :
    (optLabel label o).Sublist [label] := by
  cases o <;> simp [optLabel]

/-- C10: `get_ticker_data` is a total function of the four market-quote
results (a failed fetch already surfaces as an empty list from
`get_markets`, so it cannot raise); its label sequence is exactly the
fixed-order sublist of `S&P 500, Dow, Nasdaq, VIX, 10Y Yield, DXY, WTI`
determined slot-by-slot by whether the corresponding market list contains a
matching row — so a failure in one market type never suppresses entries
derived from the others — and it never holds more than seven entries. -/
theorem te_C10 (idx bonds fx comm : List MRow) :
    (get_ticker_data idx bonds fx comm).map Ticker.label =
      optLabel "S&P 500" (findSymbol idx "US500") ++
      optLabel "Dow" (findSymbol idx "US30") ++
      optLabel "Nasdaq" (findSymbol idx "US100") ++
      optLabel "VIX" (findSymbol idx "USVIX") ++
      optLabel "10Y Yield" (findNameContains bonds "US 10Y") ++
      optLabel "DXY" (findDxy fx) ++
      optLabel "WTI" (findNameContains comm "Crude Oil") ∧
    (get_ticker_data idx bonds fx comm).length ≤ 7 ∧
    ((get_ticker_data idx bonds fx comm).map Ticker.label).Sublist
      ["S&P 500", "Dow", "Nasdaq", "VIX", "10Y Yield", "DXY", "WTI"] := by
  refine ⟨?_, ?_, ?_⟩
  · simp [get_ticker_data, map_label_optTicker]
  · have h1 := length_optTicker_le "S&P 500" (findSymbol idx "US500")
    have h2 := length_optTicker_le "Dow" (findSymbol idx "US30")
    have h3 := length_optTicker_le "Nasdaq" (findSymbol idx "US100")
    have h4 := length_optTicker_le "VIX" (findSymbol idx "USVIX")
    have h5 := length_optTicker_le "10Y Yield" (findNameContains bonds "US 10Y")
    have h6 := length_optTicker_le "DXY" (findDxy fx)
    have h7 := length_optTicker_le "WTI" (findNameContains comm "Crude Oil")
    simp only [get_ticker_data, List.length_append]
    omega
  · rw [show (get_ticker_data idx bonds fx comm).map Ticker.label =
      optLabel "S&P 500" (findSymbol idx "US500") ++
      optLabel "Dow" (findSymbol idx "US30") ++
      optLabel "Nasdaq" (findSymbol idx "US100") ++
      optLabel "VIX" (findSymbol idx "USVIX") ++
      optLabel "10Y Yield" (findNameContains bonds "US 10Y") ++
      optLabel "DXY" (findDxy fx) ++
      optLabel "WTI" (findNameContains comm "Crude Oil") by
        simp [get_ticker_data, map_label_optTicker]]
    show List.Sublist _
      (["S&P 500"] ++ ["Dow"] ++ ["Nasdaq"] ++ ["VIX"] ++ ["10Y Yield"] ++
        ["DXY"] ++ ["WTI"])
    have s1 := optLabel_sublist "S&P 500" (findSymbol idx "US500")
    have s2 := optLabel_sublist "Dow" (findSymbol idx "US30")
    have s3 := optLabel_sublist "Nasdaq" (findSymbol idx "US100")
    have s4 := optLabel_sublist "VIX" (findSymbol idx "USVIX")
    have s5 := optLabel_sublist "10Y Yield" (findNameContains bonds "US 10Y")
    have s6 := optLabel_sublist "DXY" (findDxy fx)
    have s7 := optLabel_sublist "WTI" (findNameContains comm "Crude Oil")
    exact (((((s1.append s2).append s3).append s4).append s5).append
      s6).append s7

end TEAPI
